import Mathlib

/-!
Verification development for the LocalStack EventBridge Pipes emulation
(control plane in localstack/services/pipes/provider.py and models.py,
data plane in pipe_event_processor.py and targets/).

The Python code is shallowly embedded: JSON-compatible Python values are
the inductive type JVal (JSON numbers are restricted to integers in this
embedding), Python dicts are association lists that keep insertion order,
exceptions are modelled with Except, and wall-clock instants are Nat.
-/

namespace Pipes

/-- Characters used for literal braces in generated JSON text. -/
def lbrace : Char := Char.ofNat 123

/-- Closing brace character. -/
def rbrace : Char := Char.ofNat 125

/-- JSON-compatible Python value (numbers restricted to integers). -/
inductive JVal where
  | null : JVal
  | bool (b : Bool) : JVal
  | int (n : Int) : JVal
  | str (s : String) : JVal
  | arr (elems : List JVal) : JVal
  | obj (fields : List (String × JVal)) : JVal

/-- Lookup in an insertion-ordered association list (Python dict read). -/
def alistLookup {α : Type} (d : List (String × α)) (k : String) : Option α :=
  match d with
  | [] => none
  | (k', v) :: rest => if k' = k then some v else alistLookup rest k

/-- Assignment d[k] = v on a Python dict: replaces the first binding of k in
place, or appends a new binding. -/
def alistSet {α : Type} (d : List (String × α)) (k : String) (v : α) :
    List (String × α) :=
  match d with
  | [] => [(k, v)]
  | (k', v') :: rest => if k' = k then (k, v) :: rest else (k', v') :: alistSet rest k v

/-- Removal d.pop(k, None) on a Python dict: drops the first binding of k. -/
def alistRemove {α : Type} (d : List (String × α)) (k : String) : List (String × α) :=
  match d with
  | [] => []
  | (k', v') :: rest => if k' = k then rest else (k', v') :: alistRemove rest k

/-- Python dict.update: applies each binding of kvs in order. -/
def alistUpdate {α : Type} (d : List (String × α)) (kvs : List (String × α)) :
    List (String × α) :=
  kvs.foldl (fun acc kv => alistSet acc kv.1 kv.2) d

/-! ## JSON serialization (json.dumps and the compact to_json_str helper) -/

/-- Hexadecimal digit character for a value below 16. -/
def hexDigit (n : Nat) : Char :=
  if n < 10 then Char.ofNat (48 + n) else Char.ofNat (87 + n)

/-- Six-character JSON escape of one code unit below 0x10000. -/
def uEscape (n : Nat) : List Char :=
  ['\\', 'u', hexDigit (n / 4096 % 16), hexDigit (n / 256 % 16),
   hexDigit (n / 16 % 16), hexDigit (n % 16)]

/-- Escape of one character inside a JSON string literal, following
json.dumps with its default ensure_ascii=True. -/
def escChar (c : Char) : List Char :=
  if c = '"' then ['\\', '"']
  else if c = '\\' then ['\\', '\\']
  else if c = '\n' then ['\\', 'n']
  else if c = '\t' then ['\\', 't']
  else if c = '\r' then ['\\', 'r']
  else if c.toNat = 8 then ['\\', 'b']
  else if c.toNat = 12 then ['\\', 'f']
  else if c.toNat < 32 then uEscape c.toNat
  else if c.toNat < 127 then [c]
  else if c.toNat < 65536 then uEscape c.toNat
  else
    uEscape (55296 + (c.toNat - 65536) / 1024) ++ uEscape (56320 + (c.toNat - 65536) % 1024)

/-- JSON string literal for s. -/
def dumpJStr (s : String) : String :=
  String.mk ('"' :: s.data.foldr (fun c acc => escChar c ++ acc) ['"'])

mutual

/-- JSON text for a value, parameterized by the item and key separators
(json.dumps uses ", " and ": " by default; to_json_str is compact). -/
def dumpSep (isep ksep : String) : JVal → String
  | .null => "null"
  | .bool true => "true"
  | .bool false => "false"
  | .int n => toString n
  | .str s => dumpJStr s
  | .arr es => "[" ++ dumpSepElems isep ksep es ++ "]"
  | .obj fs => String.mk [lbrace] ++ dumpSepFields isep ksep fs ++ String.mk [rbrace]

/-- Serialize array elements joined by the item separator. -/
def dumpSepElems (isep ksep : String) : List JVal → String
  | [] => ""
  | [e] => dumpSep isep ksep e
  | e :: e' :: es => dumpSep isep ksep e ++ isep ++ dumpSepElems isep ksep (e' :: es)

/-- Serialize object members joined by the separators. -/
def dumpSepFields (isep ksep : String) : List (String × JVal) → String
  | [] => ""
  | [(k, v)] => dumpJStr k ++ ksep ++ dumpSep isep ksep v
  | (k, v) :: f :: fs =>
    dumpJStr k ++ ksep ++ dumpSep isep ksep v ++ isep ++ dumpSepFields isep ksep (f :: fs)

end

/-- Python json.dumps with default separators. -/
def json_dumps (v : JVal) : String := dumpSep ", " ": " v

/-- Modelled from the spec: to_json_str from the event-source-mapping
pipe_utils module is not under src/; the spec (section 4.1) says events are
serialized as compact JSON, so it is json.dumps with compact separators. -/
def to_json_str (v : JVal) : String := dumpSep "," ":" v

/-! ## JSON parsing (json.loads, restricted to integer numbers) -/

/-- JSON whitespace skipped by the Python json module. -/
def skipWs (cs : List Char) : List Char :=
  cs.dropWhile (fun c => c = ' ' || c = '\t' || c = '\n' || c = '\r')

/-- Value of a hexadecimal digit character. -/
def hexVal (c : Char) : Option Nat :=
  if '0' ≤ c ∧ c ≤ '9' then some (c.toNat - 48)
  else if 'a' ≤ c ∧ c ≤ 'f' then some (c.toNat - 87)
  else if 'A' ≤ c ∧ c ≤ 'F' then some (c.toNat - 55)
  else none

/-- Four hexadecimal digits of a \u escape. -/
def parseHex4 (cs : List Char) : Option (Nat × List Char) :=
  match cs with
  | a :: b :: c :: d :: rest =>
    match hexVal a, hexVal b, hexVal c, hexVal d with
    | some va, some vb, some vc, some vd => some (va * 4096 + vb * 256 + vc * 16 + vd, rest)
    | _, _, _, _ => none
  | _ => none

/-- Body of a JSON string literal after its opening quote; returns the
decoded characters and the input after the closing quote. Surrogate pairs
in \u escapes are combined; lone surrogates are outside this embedding. -/
def parseJStrBody : Nat → List Char → Option (List Char × List Char)
  | 0, _ => none
  | _ + 1, [] => none
  | fuel + 1, c :: rest =>
    if c = '"' then some ([], rest)
    else if c = '\\' then
      match rest with
      | [] => none
      | e :: rest2 =>
        if e = 'u' then
          match parseHex4 rest2 with
          | none => none
          | some (n, rest3) =>
            if 55296 ≤ n ∧ n < 56320 then
              match rest3 with
              | '\\' :: 'u' :: rest4 =>
                match parseHex4 rest4 with
                | some (m, rest5) =>
                  if 56320 ≤ m ∧ m < 57344 then
                    (parseJStrBody fuel rest5).map fun p =>
                      (Char.ofNat (65536 + (n - 55296) * 1024 + (m - 56320)) :: p.1, p.2)
                  else none
                | none => none
              | _ => none
            else if 56320 ≤ n ∧ n < 57344 then none
            else (parseJStrBody fuel rest3).map fun p => (Char.ofNat n :: p.1, p.2)
        else
          let decoded : Option Char :=
            if e = '"' then some '"'
            else if e = '\\' then some '\\'
            else if e = '/' then some '/'
            else if e = 'b' then some (Char.ofNat 8)
            else if e = 'f' then some (Char.ofNat 12)
            else if e = 'n' then some '\n'
            else if e = 'r' then some '\r'
            else if e = 't' then some '\t'
            else none
          match decoded with
          | some d => (parseJStrBody fuel rest2).map fun p => (d :: p.1, p.2)
          | none => none
    else if c.toNat < 32 then none
    else (parseJStrBody fuel rest).map fun p => (c :: p.1, p.2)

/-- Digits of a decimal literal interpreted as a natural number. -/
def digitsToNat (ds : List Char) : Nat :=
  ds.foldl (fun acc c => acc * 10 + (c.toNat - 48)) 0

/-- JSON number starting at cs. Python accepts floats too; this embedding
covers the integer grammar and rejects fraction or exponent forms. -/
def parseNum (cs : List Char) : Option (JVal × List Char) :=
  let (neg, cs1) := match cs with
    | '-' :: rest => (true, rest)
    | _ => (false, cs)
  let ds := cs1.takeWhile Char.isDigit
  let rest := cs1.drop ds.length
  if ds.isEmpty then none
  else if 1 < ds.length ∧ ds.headI = '0' then none
  else
    match rest with
    | c :: _ =>
      if c = '.' ∨ c = 'e' ∨ c = 'E' then none
      else some (.int (if neg then -(digitsToNat ds : Int) else (digitsToNat ds : Int)), rest)
    | [] => some (.int (if neg then -(digitsToNat ds : Int) else (digitsToNat ds : Int)), [])

/-- Literal keyword match. -/
def dropLit (lit cs : List Char) : Option (List Char) :=
  match lit, cs with
  | [], rest => some rest
  | l :: ls, c :: rest => if c = l then dropLit ls rest else none
  | _ :: _, [] => none

mutual

/-- JSON value at the head of the input (leading whitespace allowed). -/
def parseVal : Nat → List Char → Option (JVal × List Char)
  | 0, _ => none
  | fuel + 1, cs =>
    match skipWs cs with
    | [] => none
    | c :: rest =>
      if c = lbrace then parseObjRest fuel rest
      else if c = '[' then parseArrRest fuel rest
      else if c = '"' then
        (parseJStrBody (rest.length + 1) rest).map fun p => (.str (String.mk p.1), p.2)
      else if c = 't' then (dropLit ['r', 'u', 'e'] rest).map fun r => (.bool true, r)
      else if c = 'f' then (dropLit ['a', 'l', 's', 'e'] rest).map fun r => (.bool false, r)
      else if c = 'n' then (dropLit ['u', 'l', 'l'] rest).map fun r => (.null, r)
      else if c = '-' ∨ c.isDigit then parseNum (c :: rest)
      else none

/-- Remainder of a JSON array after its opening bracket. -/
def parseArrRest : Nat → List Char → Option (JVal × List Char)
  | 0, _ => none
  | fuel + 1, cs =>
    match skipWs cs with
    | ']' :: rest => some (.arr [], rest)
    | cs' =>
      match parseVal fuel cs' with
      | none => none
      | some (v, rest) => parseArrTail fuel [v] rest

/-- Elements of a JSON array after the first value. -/
def parseArrTail : Nat → List JVal → List Char → Option (JVal × List Char)
  | 0, _, _ => none
  | fuel + 1, acc, cs =>
    match skipWs cs with
    | ',' :: rest =>
      match parseVal fuel rest with
      | none => none
      | some (v, rest2) => parseArrTail fuel (acc ++ [v]) rest2
    | ']' :: rest => some (.arr acc, rest)
    | _ => none

/-- Remainder of a JSON object after its opening brace. -/
def parseObjRest : Nat → List Char → Option (JVal × List Char)
  | 0, _ => none
  | fuel + 1, cs =>
    match skipWs cs with
    | c :: rest =>
      if c = rbrace then some (.obj [], rest)
      else if c = '"' then
        match parseMemberAfterQuote fuel rest with
        | none => none
        | some (kv, rest2) => parseObjTail fuel [kv] rest2
      else none
    | [] => none

/-- Further members of a JSON object after the first member. Duplicate keys
overwrite earlier ones, as in the Python json module. -/
def parseObjTail : Nat → List (String × JVal) → List Char → Option (JVal × List Char)
  | 0, _, _ => none
  | fuel + 1, acc, cs =>
    match skipWs cs with
    | c :: rest =>
      if c = rbrace then some (.obj acc, rest)
      else if c = ',' then
        match skipWs rest with
        | '"' :: rest2 =>
          match parseMemberAfterQuote fuel rest2 with
          | none => none
          | some (kv, rest3) => parseObjTail fuel (alistSet acc kv.1 kv.2) rest3
        | _ => none
      else none
    | [] => none

/-- One key/value member, the key quote already consumed. -/
def parseMemberAfterQuote : Nat → List Char → Option ((String × JVal) × List Char)
  | 0, _ => none
  | fuel + 1, cs =>
    match parseJStrBody (cs.length + 1) cs with
    | none => none
    | some (k, rest) =>
      match skipWs rest with
      | ':' :: rest2 =>
        match parseVal fuel rest2 with
        | none => none
        | some (v, rest3) => some ((String.mk k, v), rest3)
      | _ => none

end

/-- Python json.loads on the integer-number JSON subset: parse one value
and require only whitespace after it. -/
def json_loads (s : String) : Option JVal :=
  match parseVal (2 * s.length + 4) s.data with
  | some (v, rest) => if (skipWs rest).isEmpty then some v else none
  | none => none

/-! ## base64.b64decode and UTF-8 decoding (the to_str helper)

The event processor calls to_str(base64.b64decode(decoded)) inside a
try/except; both a base64 error and a UTF-8 error take the same break
branch, so the two steps are modelled as one partial function. -/

/-- Value of one character of the standard base64 alphabet. -/
def b64Val (c : Char) : Option Nat :=
  if 'A' ≤ c ∧ c ≤ 'Z' then some (c.toNat - 65)
  else if 'a' ≤ c ∧ c ≤ 'z' then some (c.toNat - 71)
  else if '0' ≤ c ∧ c ≤ '9' then some (c.toNat + 4)
  else if c = '+' then some 62
  else if c = '/' then some 63
  else none

/-- Bytes of a run of 6-bit groups; a trailing group of one is invalid. -/
def b64Groups : List Nat → Option (List Nat)
  | [] => some []
  | a :: b :: c :: d :: rest =>
    (b64Groups rest).map fun bs =>
      (a * 4 + b / 16) :: (b % 16 * 16 + c / 4) :: (c % 4 * 64 + d) :: bs
  | [a, b] => some [a * 4 + b / 16]
  | [a, b, c] => some [a * 4 + b / 16, b % 16 * 16 + c / 4]
  | [_] => none

/-- Python base64.b64decode on a str: the argument is encoded as ASCII
(non-ASCII raises), characters outside the alphabet are discarded, '='
terminates the data and must pad it to a multiple of four characters. -/
def base64_b64decode (s : String) : Option (List Nat) :=
  if s.data.any (fun c => 127 < c.toNat) then none
  else
    let kept := s.data.filter (fun c => (b64Val c).isSome || c = '=')
    let main := kept.takeWhile (fun c => c ≠ '=')
    let padPart := kept.drop main.length
    if ¬ padPart.all (fun c => c = '=') then none
    else if main.length % 4 = 1 then none
    else if main.length % 4 ≠ 0 ∧ padPart.length + main.length % 4 < 4 then none
    else b64Groups (main.filterMap b64Val)

/-- Continuation byte of a UTF-8 sequence. -/
def utf8Cont (b : Nat) : Bool := 128 ≤ b ∧ b ≤ 191

/-- Strict UTF-8 decoding (Python bytes.decode rejects overlong forms and
surrogates). -/
def utf8DecodeGo : Nat → List Nat → Option (List Char)
  | _, [] => some []
  | 0, _ :: _ => none
  | fuel + 1, b :: rest =>
    if b < 128 then (utf8DecodeGo fuel rest).map (Char.ofNat b :: ·)
    else if 194 ≤ b ∧ b ≤ 223 then
      match rest with
      | b2 :: r2 =>
        if utf8Cont b2 then
          (utf8DecodeGo fuel r2).map (Char.ofNat ((b - 192) * 64 + (b2 - 128)) :: ·)
        else none
      | _ => none
    else if 224 ≤ b ∧ b ≤ 239 then
      match rest with
      | b2 :: b3 :: r2 =>
        if utf8Cont b2 ∧ utf8Cont b3 ∧ (b = 224 → 160 ≤ b2) ∧ (b = 237 → b2 ≤ 159) then
          (utf8DecodeGo fuel r2).map
            (Char.ofNat ((b - 224) * 4096 + (b2 - 128) * 64 + (b3 - 128)) :: ·)
        else none
      | _ => none
    else if 240 ≤ b ∧ b ≤ 244 then
      match rest with
      | b2 :: b3 :: b4 :: r2 =>
        if utf8Cont b2 ∧ utf8Cont b3 ∧ utf8Cont b4 ∧
            (b = 240 → 144 ≤ b2) ∧ (b = 244 → b2 ≤ 143) then
          (utf8DecodeGo fuel r2).map
            (Char.ofNat ((b - 240) * 262144 + (b2 - 128) * 4096 + (b3 - 128) * 64 + (b4 - 128)) :: ·)
        else none
      | _ => none
    else none

/-- Decode a byte list as UTF-8 text. -/
def utf8Decode (bs : List Nat) : Option String :=
  (utf8DecodeGo (bs.length + 1) bs).map String.mk

/-- One round of to_str(base64.b64decode(decoded)): only a str can be
base64-decoded (any other Python value raises TypeError). -/
def b64_to_str (v : JVal) : Option String :=
  match v with
  | .str s => (base64_b64decode s).bind utf8Decode
  | _ => none

/-! ## PipeEventProcessor._decode_data_field (pipe_event_processor.py) -/

/-- Decode loop over the data value: up to n rounds of base64 decoding,
each followed by a JSON parse attempt; the first JSON success is the
result, a failed decode breaks with the current value, and an exhausted
loop keeps the last successfully decoded string. -/
def decodeRounds : Nat → JVal → JVal
  | 0, decoded => decoded
  | n + 1, decoded =>
    match b64_to_str decoded with
    | none => decoded
    | some d =>
      match json_loads d with
      | some v => v
      | none => decodeRounds n (.str d)

/-- PipeEventProcessor._decode_data_field: a record without a data field is
returned as is; otherwise the decode loop result replaces the data value
on a shallow copy of the record. -/
def _decode_data_field (event : List (String × JVal)) : List (String × JVal) :=
  match alistLookup event "data" with
  | none => event
  | some raw => alistSet event "data" (decodeRounds 3 raw)

/-- Claim-side description of the data decoding (spec section 4.4): the
successive successful base64 decodes, capped at three. -/
def specDecodes (raw : JVal) : List String :=
  match b64_to_str raw with
  | none => []
  | some d1 =>
    match b64_to_str (.str d1) with
    | none => [d1]
    | some d2 =>
      match b64_to_str (.str d2) with
      | none => [d1, d2]
      | some d3 => [d1, d2, d3]

/-- First JSON parse among the decoded strings. -/
def firstJsonOf : List String → Option JVal
  | [] => none
  | d :: ds =>
    match json_loads d with
    | some v => some v
    | none => firstJsonOf ds

/-- Modelled from the spec sentence for claim C2: the first successful JSON
parse replaces data; with no parse, data becomes the last successfully
decoded string, or stays the original value when the first decode fails. -/
def decode_data_field_spec (event : List (String × JVal)) : List (String × JVal) :=
  match alistLookup event "data" with
  | none => event
  | some raw =>
    let ds := specDecodes raw
    match firstJsonOf ds with
    | some v => alistSet event "data" v
    | none =>
      match ds.getLast? with
      | some d => alistSet event "data" (.str d)
      | none => alistSet event "data" raw

/-! ## PipeInputTransformer (targets/input_transformer.py)

The placeholder pattern is the regular expression <(.*?)> where the dot
does not match a newline. -/

/-- Python str.strip whitespace (the six ASCII whitespace characters). -/
def isPySpace (c : Char) : Bool :=
  c = ' ' || c = '\t' || c = '\n' || c = '\r' || c.toNat = 11 || c.toNat = 12

/-- Python str.strip. -/
def pyStrip (s : String) : String :=
  String.mk (((s.data.dropWhile isPySpace).reverse.dropWhile isPySpace).reverse)

/-- Scan for the closing bracket of a placeholder: the key characters up to
the first unsignalled closing bracket, failing on a newline first. -/
def findClose : List Char → Option (List Char × List Char)
  | [] => none
  | c :: rest =>
    if c = '>' then some ([], rest)
    else if c = '\n' then none
    else (findClose rest).map fun p => (c :: p.1, p.2)

/-- Left-to-right substitution of every placeholder match, as re.sub does
with the pattern. Fuel is the input length, ample since every step
consumes at least one character. -/
def substGo (repl : String → String) : Nat → List Char → List Char
  | 0, cs => cs
  | _ + 1, [] => []
  | fuel + 1, c :: rest =>
    if c = '<' then
      match findClose rest with
      | some (k, r) => (repl (String.mk k)).data ++ substGo repl fuel r
      | none => c :: substGo repl fuel rest
    else c :: substGo repl fuel rest

/-- PIPE_PLACEHOLDER_PATTERN.sub(repl, s). -/
def pipe_placeholder_sub (repl : String → String) (s : String) : String :=
  String.mk (substGo repl (s.data.length + 1) s.data)

/-- Key collection pass of PIPE_PLACEHOLDER_PATTERN.findall(s). -/
def findallGo : Nat → List Char → List String
  | 0, _ => []
  | _ + 1, [] => []
  | fuel + 1, c :: rest =>
    if c = '<' then
      match findClose rest with
      | some (k, r) => String.mk k :: findallGo fuel r
      | none => findallGo fuel rest
    else findallGo fuel rest

/-- PIPE_PLACEHOLDER_PATTERN.findall(s). -/
def pipe_placeholder_findall (s : String) : List String :=
  findallGo (s.data.length + 1) s.data

/-- PIPE_PLACEHOLDER_PATTERN.fullmatch(s): the whole string is one bracket
pair whose interior holds no newline; the captured group is the interior. -/
def placeholderFullmatch (s : String) : Option String :=
  match s.data with
  | '<' :: rest =>
    if rest.getLast? = some '>' ∧ rest.dropLast.all (fun c => c ≠ '\n')
    then some (String.mk rest.dropLast)
    else none
  | _ => none

/-- The _extract_jsonpath loop: walk dot-separated keys from the root,
yielding the empty string on a missing key or non-object step. -/
def jsonpathWalk : List String → JVal → JVal
  | [], cur => cur
  | k :: ks, cur =>
    match cur with
    | .obj fs => jsonpathWalk ks ((alistLookup fs k).getD (.str ""))
    | _ => .str ""

/-- Simple jsonpath extraction supporting dot notation (input_transformer
._extract_jsonpath). -/
def _extract_jsonpath (event : JVal) (path : String) : JVal :=
  if path.startsWith "$." then jsonpathWalk ((path.drop 2).splitOn ".") event
  else .str ""

/-- PipeInputTransformer._build_replacements: the fixed pipe variables plus
one entry per jsonpath placeholder occurring in the template. The
ingestion-time instant is passed in as now_iso. -/
def _build_replacements (input_template pipe_arn pipe_name source_arn target_arn now_iso :
    String) (event : List (String × JVal)) : List (String × JVal) :=
  [("aws.pipes.pipe-arn", JVal.str pipe_arn),
   ("aws.pipes.pipe-name", JVal.str pipe_name),
   ("aws.pipes.source-arn", JVal.str source_arn),
   ("aws.pipes.target-arn", JVal.str target_arn),
   ("aws.pipes.event.ingestion-time", JVal.str now_iso),
   ("aws.pipes.event.json", JVal.obj event),
   ("aws.pipes.event", JVal.obj event)]
  ++ (pipe_placeholder_findall input_template).filterMap fun p =>
      if p.startsWith "$." then some (p, _extract_jsonpath (.obj event) p) else none

/-- The replacements.get(key, "") read. -/
def replGet (repl : List (String × JVal)) (k : String) : JVal :=
  (alistLookup repl k).getD (.str "")

/-- The replace_match callback: dicts through to_json_str, lists and
booleans through json.dumps, anything else through str. -/
def replaceValue : JVal → String
  | .obj fs => to_json_str (.obj fs)
  | .arr es => json_dumps (.arr es)
  | .bool b => json_dumps (.bool b)
  | .str s => s
  | .int n => toString n
  | .null => "None"

/-- PipeInputTransformer._replace_placeholders: a template that is exactly
one placeholder resolving to a dict or list returns the value itself;
otherwise every placeholder is substituted, and a template whose stripped
form begins with a brace is JSON-parsed on success. -/
def _replace_placeholders (template : String) (repl : List (String × JVal)) : JVal :=
  let stripped := pyStrip template
  let direct : Option JVal :=
    match placeholderFullmatch stripped with
    | some key =>
      match replGet repl key with
      | .obj fs => some (.obj fs)
      | .arr es => some (.arr es)
      | _ => none
    | none => none
  match direct with
  | some v => v
  | none =>
    let result := pipe_placeholder_sub (fun k => replaceValue (replGet repl k)) template
    if stripped.startsWith (String.mk [lbrace]) then
      match json_loads result with
      | some v => v
      | none => .str result
    else .str result

/-- PipeInputTransformer.transform. -/
def transform (input_template pipe_arn pipe_name source_arn target_arn now_iso : String)
    (event : List (String × JVal)) : JVal :=
  _replace_placeholders input_template
    (_build_replacements input_template pipe_arn pipe_name source_arn target_arn now_iso event)

/-- Structured values are dicts and lists. -/
def isStructured : JVal → Bool
  | .obj _ => true
  | .arr _ => true
  | _ => false

/-- Modelled from the spec sentences for claim C1 (the result typing rule
of section 4.2), stated independently of the code path ordering. -/
def replace_placeholders_spec (template : String) (repl : List (String × JVal)) : JVal :=
  let stripped := pyStrip template
  let substituted := pipe_placeholder_sub (fun k => replaceValue (replGet repl k)) template
  let asString : JVal :=
    if stripped.startsWith (String.mk [lbrace]) then
      (json_loads substituted).getD (.str substituted)
    else .str substituted
  match placeholderFullmatch stripped with
  | some key => if isStructured (replGet repl key) then replGet repl key else asString
  | none => asString

/-! ## Control plane (models.py and provider.py)

Wall-clock instants are abstract Nat values passed to each operation; the
pipe-worker calls are parameterized by booleans saying whether the worker
construction, start or stop raises. Each operation returns the provider
state it leaves behind together with its result or raised API error. -/

/-- RequestedPipeState; delete_pipe assigns the raw string DELETED. -/
inductive RequestedPipeState where
  | RUNNING : RequestedPipeState
  | STOPPED : RequestedPipeState
  | DELETED : RequestedPipeState
deriving DecidableEq, Repr

/-- PipeState values of the pipes API. -/
inductive PipeState where
  | CREATING | STARTING | RUNNING | STOPPING | STOPPED
  | UPDATING | DELETING | CREATE_FAILED | STOP_FAILED
deriving DecidableEq, Repr

/-- PipeEntity (models.py); the opaque pass-through parameter groups are
kept as uninterpreted optional strings. -/
structure PipeEntity where
  name : String
  source : String
  target : String
  role_arn : String
  region : String
  account_id : String
  description : Option String
  desired_state : RequestedPipeState
  current_state : PipeState
  state_reason : Option String
  source_parameters : Option String
  target_parameters : Option String
  enrichment : Option String
  enrichment_parameters : Option String
  tags : Option (List (String × String))
  log_configuration : Option String
  kms_key_identifier : Option String
  creation_time : Nat
  last_modified_time : Nat
deriving DecidableEq, Repr

/-- The derived pipe ARN (models._pipe_arn). -/
def pipeArnOf (name account_id region : String) : String :=
  s!"arn:aws:pipes:{region}:{account_id}:pipe/{name}"

/-- PipeEntity.arn property. -/
def PipeEntity.arn (p : PipeEntity) : String :=
  pipeArnOf p.name p.account_id p.region

/-- Character class of PIPE_NAME_PATTERN. -/
def validPipeNameChar (c : Char) : Bool :=
  c = '.' || c = '-' || c = '_' ||
  ('A' ≤ c ∧ c ≤ 'Z') || ('a' ≤ c ∧ c ≤ 'z') || c.isDigit

/-- Name validation of models._validate_pipe_name: nonempty, at most 64
characters, and matching the anchored pattern — where the dollar anchor of
the Python regex also accepts one trailing newline. -/
def _validate_pipe_name_ok (name : String) : Bool :=
  let cs := name.data
  let core := if cs.getLast? = some '\n' then cs.dropLast else cs
  ¬ name.isEmpty ∧ name.length ≤ 64 ∧ ¬ core.isEmpty ∧ core.all validPipeNameChar

/-- API errors raised by the provider. -/
inductive ApiError where
  | validationException (message : String)
  | conflictException (message resourceId resourceType : String)
  | notFoundException (message : String)
deriving DecidableEq, Repr

/-- Modelled from the spec: tag storage is an opaque key-value service
keyed by resource ARN (the TaggingService utility is outside src/). -/
def tags_tag_resource (svc : List (String × List (String × String))) (arn : String)
    (kvs : List (String × String)) : List (String × List (String × String)) :=
  alistSet svc arn (alistUpdate ((alistLookup svc arn).getD []) kvs)

/-- Modelled from the spec: tag removal in the opaque tag service. -/
def tags_untag_resource (svc : List (String × List (String × String))) (arn : String)
    (keys : List String) : List (String × List (String × String)) :=
  alistSet svc arn (keys.foldl alistRemove ((alistLookup svc arn).getD []))

/-- Modelled from the spec: tag listing in the opaque tag service. -/
def tags_list_for_resource (svc : List (String × List (String × String)))
    (arn : String) : List (String × String) :=
  (alistLookup svc arn).getD []

/-- PipesStore: the per-region pipe map and the cross-region tag service. -/
structure PipesStore where
  pipes : List (String × PipeEntity)
  TAGS : List (String × List (String × String))
deriving DecidableEq, Repr

/-- Provider-level state: the store and the worker registry (worker handles
are modelled by the registered pipe names). -/
structure ProviderState where
  store : PipesStore
  workers : List String
deriving DecidableEq, Repr

/-- Response shape shared by the create, start, stop, update and delete
responses (Arn, Name, DesiredState, CurrentState, CreationTime,
LastModifiedTime). -/
structure PipeLifecycleResponse where
  Arn : String
  Name : String
  DesiredState : RequestedPipeState
  CurrentState : PipeState
  CreationTime : Nat
  LastModifiedTime : Nat
deriving DecidableEq, Repr

/-- Response projection from the mutated entity. -/
def mkResp (p : PipeEntity) : PipeLifecycleResponse :=
  { Arn := p.arn, Name := p.name, DesiredState := p.desired_state,
    CurrentState := p.current_state, CreationTime := p.creation_time,
    LastModifiedTime := p.last_modified_time }

/-- PipesProvider._start_pipe_worker: on success the worker is registered
and the entity untouched; a raise from the factory (before registration)
or from worker.start (after it) leaves CREATE_FAILED with a reason. -/
def _start_pipe_worker (createRaises startRaises : Bool) (workers : List String)
    (pipe : PipeEntity) : List String × PipeEntity :=
  let failed := { pipe with current_state := PipeState.CREATE_FAILED,
                            state_reason := some "Failed to start pipe worker" }
  if createRaises then (workers, failed)
  else
    let ws := if workers.contains pipe.name then workers else workers ++ [pipe.name]
    if startRaises then (ws, failed) else (ws, pipe)

/-- PipesProvider._stop_pipe_worker: pops the worker handle if present and
records STOPPED, or STOP_FAILED when worker.stop raises. -/
def _stop_pipe_worker (stopRaises : Bool) (workers : List String)
    (pipe : PipeEntity) : List String × PipeEntity :=
  if workers.contains pipe.name then
    (workers.erase pipe.name,
     if stopRaises then { pipe with current_state := .STOP_FAILED }
     else { pipe with current_state := .STOPPED })
  else (workers, pipe)

/-- The missing-pipe error text of _get_pipe. -/
def notFoundMsg (name : String) : String := s!"Pipe {name} does not exist."

/-- PipesProvider.create_pipe. -/
def create_pipe (now : Nat) (createRaises startRaises : Bool) (ps : ProviderState)
    (account_id region : String) (name source target role_arn : String)
    (description : Option String) (desired_state : Option RequestedPipeState)
    (source_parameters : Option String) (enrichment : Option String)
    (enrichment_parameters : Option String) (target_parameters : Option String)
    (tags : Option (List (String × String)))
    (log_configuration : Option String) (kms_key_identifier : Option String) :
    ProviderState × Except ApiError PipeLifecycleResponse :=
  if ¬ _validate_pipe_name_ok name then
    (ps, .error (.validationException s!"1 validation error detected: Value {name} at name failed the pattern constraint"))
  else if (alistLookup ps.store.pipes name).isSome then
    (ps, .error (.conflictException s!"Pipe {name} already exists." name "pipe"))
  else
    let ds := desired_state.getD .RUNNING
    let pipe : PipeEntity :=
      { name := name, source := source, target := target, role_arn := role_arn,
        region := region, account_id := account_id, description := description,
        desired_state := ds, current_state := .CREATING, state_reason := none,
        source_parameters := source_parameters, target_parameters := target_parameters,
        enrichment := enrichment, enrichment_parameters := enrichment_parameters,
        tags := tags, log_configuration := log_configuration,
        kms_key_identifier := kms_key_identifier,
        creation_time := now, last_modified_time := now }
    let st1 : PipesStore := { ps.store with pipes := alistSet ps.store.pipes name pipe }
    let st2 : PipesStore :=
      match tags with
      | some ts =>
        if ts.isEmpty then st1
        else { st1 with TAGS := tags_tag_resource st1.TAGS pipe.arn ts }
      | none => st1
    let wsPipe :=
      if ds = .RUNNING then _start_pipe_worker createRaises startRaises ps.workers pipe
      else (ps.workers, { pipe with current_state := .STOPPED })
    let st3 : PipesStore := { st2 with pipes := alistSet st2.pipes name wsPipe.2 }
    ({ store := st3, workers := wsPipe.1 }, .ok (mkResp wsPipe.2))

/-- PipesProvider.delete_pipe. -/
def delete_pipe (now : Nat) (stopRaises : Bool) (ps : ProviderState) (name : String) :
    ProviderState × Except ApiError PipeLifecycleResponse :=
  match alistLookup ps.store.pipes name with
  | none => (ps, .error (.notFoundException (notFoundMsg name)))
  | some pipe =>
    let wsPipe := _stop_pipe_worker stopRaises ps.workers pipe
    let pipe2 := { wsPipe.2 with current_state := PipeState.DELETING,
                                 desired_state := RequestedPipeState.DELETED,
                                 last_modified_time := now }
    let resp := mkResp pipe2
    let tags1 := tags_untag_resource ps.store.TAGS pipe2.arn ((pipe2.tags.getD []).map (·.1))
    ({ store := { pipes := alistRemove ps.store.pipes name, TAGS := tags1 },
       workers := wsPipe.1 }, .ok resp)

/-- PipesProvider.start_pipe. -/
def start_pipe (now : Nat) (createRaises startRaises : Bool) (ps : ProviderState)
    (name : String) : ProviderState × Except ApiError PipeLifecycleResponse :=
  match alistLookup ps.store.pipes name with
  | none => (ps, .error (.notFoundException (notFoundMsg name)))
  | some pipe =>
    if pipe.desired_state = .RUNNING then
      (ps, .error (.conflictException
        s!"Pipe {name} is already in the desired state RUNNING." name "pipe"))
    else
      let pipe1 := { pipe with desired_state := .RUNNING, last_modified_time := now }
      let wsPipe := _start_pipe_worker createRaises startRaises ps.workers pipe1
      ({ store := { ps.store with pipes := alistSet ps.store.pipes name wsPipe.2 },
         workers := wsPipe.1 }, .ok (mkResp wsPipe.2))

/-- PipesProvider.stop_pipe. -/
def stop_pipe (now : Nat) (stopRaises : Bool) (ps : ProviderState) (name : String) :
    ProviderState × Except ApiError PipeLifecycleResponse :=
  match alistLookup ps.store.pipes name with
  | none => (ps, .error (.notFoundException (notFoundMsg name)))
  | some pipe =>
    if pipe.desired_state = .STOPPED then
      (ps, .error (.conflictException
        s!"Pipe {name} is already in the desired state STOPPED." name "pipe"))
    else
      let pipe1 := { pipe with desired_state := .STOPPED, last_modified_time := now }
      let wsPipe := _stop_pipe_worker stopRaises ps.workers pipe1
      ({ store := { ps.store with pipes := alistSet ps.store.pipes name wsPipe.2 },
         workers := wsPipe.1 }, .ok (mkResp wsPipe.2))

/-- PipesProvider._pipe_name_from_arn regular expression match against
arn:aws:pipes:[^:]+:[^:]+:pipe/(.+) — re.match anchors at the start only,
negated classes cross newlines, and the final dot-group stops at a
newline. -/
def arnMatch (arn : String) : Option String :=
  match dropLit "arn:aws:pipes:".data arn.data with
  | none => none
  | some r1 =>
    let seg1 := r1.takeWhile (fun c => c ≠ ':')
    if seg1.isEmpty then none
    else
      match r1.drop seg1.length with
      | ':' :: r2 =>
        let seg2 := r2.takeWhile (fun c => c ≠ ':')
        if seg2.isEmpty then none
        else
          match r2.drop seg2.length with
          | ':' :: r3 =>
            match dropLit "pipe/".data r3 with
            | none => none
            | some r4 =>
              let nm := r4.takeWhile (fun c => c ≠ '\n')
              if nm.isEmpty then none else some (String.mk nm)
          | _ => none
      | _ => none

/-- PipesProvider._pipe_name_from_arn: the captured name, or the whole
string when the pattern does not match. -/
def _pipe_name_from_arn (arn : String) : String :=
  match arnMatch arn with
  | some n => n
  | none => arn

/-- PipesProvider.tag_resource: resolve the pipe from the ARN, record the
tags in the tag service, and mirror them on the entity. -/
def tag_resource (ps : ProviderState) (resource_arn : String)
    (tags : List (String × String)) : ProviderState × Except ApiError Unit :=
  let pipe_name := _pipe_name_from_arn resource_arn
  match alistLookup ps.store.pipes pipe_name with
  | none => (ps, .error (.notFoundException (notFoundMsg pipe_name)))
  | some pipe =>
    let tags1 := tags_tag_resource ps.store.TAGS resource_arn tags
    let pipe1 := { pipe with tags := some (alistUpdate (pipe.tags.getD []) tags) }
    ({ store := { pipes := alistSet ps.store.pipes pipe_name pipe1, TAGS := tags1 },
       workers := ps.workers }, .ok ())

/-- PipesProvider.untag_resource; the entity mirror is only touched when
its tag dict is non-null and non-empty, as the Python truthiness test
does. -/
def untag_resource (ps : ProviderState) (resource_arn : String)
    (tag_keys : List String) : ProviderState × Except ApiError Unit :=
  let pipe_name := _pipe_name_from_arn resource_arn
  match alistLookup ps.store.pipes pipe_name with
  | none => (ps, .error (.notFoundException (notFoundMsg pipe_name)))
  | some pipe =>
    let tags1 := tags_untag_resource ps.store.TAGS resource_arn tag_keys
    let pipe1 :=
      match pipe.tags with
      | some ts =>
        if ts.isEmpty then pipe
        else { pipe with tags := some (tag_keys.foldl alistRemove ts) }
      | none => pipe
    ({ store := { pipes := alistSet ps.store.pipes pipe_name pipe1, TAGS := tags1 },
       workers := ps.workers }, .ok ())

/-- PipesProvider.list_tags_for_resource. -/
def list_tags_for_resource (ps : ProviderState) (resource_arn : String) :
    ProviderState × Except ApiError (List (String × String)) :=
  let pipe_name := _pipe_name_from_arn resource_arn
  match alistLookup ps.store.pipes pipe_name with
  | none => (ps, .error (.notFoundException (notFoundMsg pipe_name)))
  | some _ => (ps, .ok (tags_list_for_resource ps.store.TAGS resource_arn))

/-- New-value-or-old update of the optional entity fields in update_pipe. -/
def optOverride {α : Type} (new old : Option α) : Option α :=
  match new with
  | some v => some v
  | none => old

/-- PipesProvider.update_pipe. -/
def update_pipe (now : Nat) (createRaises startRaises stopRaises : Bool)
    (ps : ProviderState) (name role_arn : String)
    (description : Option String) (desired_state : Option RequestedPipeState)
    (source_parameters : Option String) (enrichment : Option String)
    (enrichment_parameters : Option String) (target : Option String)
    (target_parameters : Option String) (log_configuration : Option String)
    (kms_key_identifier : Option String) :
    ProviderState × Except ApiError PipeLifecycleResponse :=
  match alistLookup ps.store.pipes name with
  | none => (ps, .error (.notFoundException (notFoundMsg name)))
  | some pipe =>
    let wsPipe := _stop_pipe_worker stopRaises ps.workers pipe
    let pipe2 : PipeEntity :=
      { wsPipe.2 with
        role_arn := role_arn,
        description := optOverride description wsPipe.2.description,
        desired_state := (desired_state.getD wsPipe.2.desired_state),
        source_parameters := optOverride source_parameters wsPipe.2.source_parameters,
        enrichment := optOverride enrichment wsPipe.2.enrichment,
        enrichment_parameters :=
          optOverride enrichment_parameters wsPipe.2.enrichment_parameters,
        target := (target.getD wsPipe.2.target),
        target_parameters := optOverride target_parameters wsPipe.2.target_parameters,
        log_configuration := optOverride log_configuration wsPipe.2.log_configuration,
        kms_key_identifier := optOverride kms_key_identifier wsPipe.2.kms_key_identifier,
        current_state := PipeState.UPDATING, last_modified_time := now }
    let effective := desired_state.getD pipe2.desired_state
    let wsPipe2 :=
      if effective = .RUNNING then _start_pipe_worker createRaises startRaises wsPipe.1 pipe2
      else (wsPipe.1, { pipe2 with current_state := .STOPPED })
    ({ store := { ps.store with pipes := alistSet ps.store.pipes name wsPipe2.2 },
       workers := wsPipe2.1 }, .ok (mkResp wsPipe2.2))

/-! ## PipeEventProcessor.process_events_batch (pipe_event_processor.py) -/

/-- Exceptions crossing the processor boundary; other covers every
exception class besides the two pipe error classes, str(e) is the carried
message. -/
inductive PyExc where
  | customerInvocationError (msg : String)
  | pipeInternalError (msg : String)
  | other (cls msg : String)
deriving DecidableEq, Repr

/-- Python str(e) on a single-argument exception. -/
def excMessage : PyExc → String
  | .customerInvocationError m => m
  | .pipeInternalError m => m
  | .other _ m => m

/-- Body of the try block of process_events_batch: decode each record,
apply the optional transformer, and send. The transformer and the target
are the processor's collaborators and may raise anything. -/
def pebBody (transformer : Option (List (String × JVal) → Except PyExc JVal))
    (send : List JVal → Except PyExc Unit)
    (input_events : List (List (String × JVal))) : Except PyExc Unit := do
  let events := input_events.map _decode_data_field
  let transformed ←
    match transformer with
    | some t => events.mapM t
    | none => pure (events.map JVal.obj)
  send transformed

/-- PipeEventProcessor.process_events_batch: the body under the handler
that re-raises CustomerInvocationError and wraps anything else into
PipeInternalError(str(e)). -/
def process_events_batch (transformer : Option (List (String × JVal) → Except PyExc JVal))
    (send : List JVal → Except PyExc Unit)
    (input_events : List (List (String × JVal))) : Except PyExc Unit :=
  match pebBody transformer send input_events with
  | .ok u => .ok u
  | .error (.customerInvocationError m) => .error (.customerInvocationError m)
  | .error e => .error (.pipeInternalError (excMessage e))

/-- Test for an escaped exception outside the two pipe error classes. -/
def raisesForeign : Except PyExc Unit → Bool
  | .error (.other _ _) => true
  | _ => false

/-! ## ApiDestinationPipeTarget.send (targets/api_destination_target.py)

The destination resolution and connection-auth headers touch external
stores and are resolved before the per-event loop; the loop itself is
embedded, parameterized by the HTTP transport. -/

/-- One outgoing HTTP request of the send loop. -/
structure HttpRequest where
  method : String
  url : String
  body : String
deriving DecidableEq, Repr

/-- The transport's answer to one request. -/
structure HttpResponse where
  status_code : Nat
  text : String
deriving DecidableEq, Repr

/-- Python slice s[:500] used for the logged response snippet. -/
def strTruncate (n : Nat) (s : String) : String := String.mk (s.data.take n)

/-- The per-event loop of ApiDestinationPipeTarget.send: serialize the
event, issue the request, and log a warning on a status of at least 400.
Returns the requests issued in order and the warnings logged. -/
def apiDestSendGo (respond : Nat → HttpRequest → HttpResponse) (method endpoint : String) :
    Nat → List JVal → List HttpRequest × List (Nat × String)
  | _, [] => ([], [])
  | i, e :: rest =>
    let req : HttpRequest := { method := method, url := endpoint, body := to_json_str e }
    let res := respond i req
    let tail := apiDestSendGo respond method endpoint (i + 1) rest
    (req :: tail.1,
     (if 400 ≤ res.status_code then [(res.status_code, strTruncate 500 res.text)] else []) ++ tail.2)

/-- ApiDestinationPipeTarget.send over resolved method and endpoint. The
loop body contains no raise statement, so the translation into the
exception monad is the pure result. -/
def api_destination_send (respond : Nat → HttpRequest → HttpResponse)
    (method endpoint : String) (events : List JVal) :
    Except PyExc (List HttpRequest × List (Nat × String)) :=
  .ok (apiDestSendGo respond method endpoint 0 events)

/-- Requests the spec expects: one per event, in batch order, with the
JSON-serialized event as body. -/
def expected_requests (method endpoint : String) (events : List JVal) : List HttpRequest :=
  events.map fun e => { method := method, url := endpoint, body := to_json_str e }

/-- Warnings the spec expects: the responses of status at least 400, in
order. -/
def expected_warnings (respond : Nat → HttpRequest → HttpResponse)
    (method endpoint : String) (events : List JVal) : List (Nat × String) :=
  (expected_requests method endpoint events).enum.filterMap fun p =>
    let res := respond p.1 p.2
    if 400 ≤ res.status_code then some (res.status_code, strTruncate 500 res.text) else none

/-! ## Heap model of the batch decode (claim C9)

Python dicts are mutable; to state that process_events_batch leaves its
input dicts untouched, the decode phase is replayed on an explicit heap of
dict cells. _decode_data_field copies the event (dict(event)) before its
single write, so all writes land on fresh cells. The transformer and the
targets only read their events (transform, to_json_str, send_message,
put_record and the HTTP body construction take the values), which the
value-level embeddings above reflect. -/

/-- Heap of dict cells; references are cell indices. -/
structure Heap where
  cells : List (List (String × JVal))

/-- Contents of a cell (a dangling reference reads an empty dict; the
well-formedness hypotheses below rule it out). -/
def Heap.read (h : Heap) (r : Nat) : List (String × JVal) :=
  (h.cells.get? r).getD []

/-- Allocation of a fresh cell. -/
def Heap.alloc (h : Heap) (d : List (String × JVal)) : Heap × Nat :=
  ({ cells := h.cells ++ [d] }, h.cells.length)

/-- In-place update of a cell. -/
def Heap.write (h : Heap) (r : Nat) (d : List (String × JVal)) : Heap :=
  { cells := h.cells.set r d }

/-- _decode_data_field on the heap: without a data field the original
reference is returned untouched; otherwise the record is copied into a
fresh cell and the data field is rewritten there. -/
def decode_data_field_heap (h : Heap) (r : Nat) : Heap × Nat :=
  let ev := h.read r
  match alistLookup ev "data" with
  | none => (h, r)
  | some raw =>
    let alloced := h.alloc ev
    (alloced.1.write alloced.2 (alistSet ev "data" (decodeRounds 3 raw)), alloced.2)

/-- Decode phase of process_events_batch over the whole batch. -/
def decode_batch_heap : Heap → List Nat → Heap × List Nat
  | h, [] => (h, [])
  | h, r :: rs =>
    let first := decode_data_field_heap h r
    let rest := decode_batch_heap first.1 rs
    (rest.1, first.2 :: rest.2)

/-- process_events_batch on the heap: decode into (possibly fresh) cells,
then hand the read-only transformer the decoded records and pass the
resulting values to the target. -/
def process_events_batch_heap (transformer : Option (List (String × JVal) → JVal))
    (h : Heap) (input_events : List Nat) : Heap × List JVal :=
  let decoded := decode_batch_heap h input_events
  let transformed :=
    match transformer with
    | some t => decoded.2.map fun r => t (decoded.1.read r)
    | none => decoded.2.map fun r => JVal.obj (decoded.1.read r)
  (decoded.1, transformed)

/-- Test for a raised ConflictException. -/
def isConflict {α : Type} : Except ApiError α → Bool
  | .error (.conflictException _ _ _) => true
  | _ => false

/-- Sample pipe entity for concrete instantiations. -/
def samplePipe (nm : String) (ds : RequestedPipeState) (lmt : Nat) : PipeEntity :=
  { name := nm, source := "arn:aws:sqs:us-east-1:000000000000:src",
    target := "arn:aws:sqs:us-east-1:000000000000:dst",
    role_arn := "arn:aws:iam::000000000000:role/r", region := "us-east-1",
    account_id := "000000000000", description := none, desired_state := ds,
    current_state := .STOPPED, state_reason := none, source_parameters := none,
    target_parameters := none, enrichment := none, enrichment_parameters := none,
    tags := none, log_configuration := none, kms_key_identifier := none,
    creation_time := 0, last_modified_time := lmt }

/-- Sample provider state with one pipe requested RUNNING and one
requested STOPPED. -/
def sampleState : ProviderState :=
  { store := { pipes := [("a", samplePipe "a" .RUNNING 0), ("b", samplePipe "b" .STOPPED 0)],
               TAGS := [] },
    workers := [] }

/-- Sample response record used to instantiate unused response binders. -/
def sampleResp : PipeLifecycleResponse := mkResp (samplePipe "a" .RUNNING 0)

/-! ## Shared lemmas -/

/-- Rewriting a key to the value it already holds is the identity. -/
theorem alistSet_lookup_self {α : Type} (d : List (String × α)) (k : String) (v : α)
    (h : alistLookup d k = some v) : alistSet d k v = d := by
  induction d with
  | nil => simp [alistLookup] at h
  | cons kv rest ih =>
    obtain ⟨k', v'⟩ := kv
    by_cases hk : k' = k
    · rw [alistLookup, if_pos hk] at h
      cases h
      rw [alistSet, if_pos hk, hk]
    · rw [alistLookup, if_neg hk] at h
      rw [alistSet, if_neg hk, ih h]

/-- Lookup after assignment. -/
theorem alistLookup_alistSet {α : Type} (d : List (String × α)) (k : String) (v : α)
    (n : String) :
    alistLookup (alistSet d k v) n = if k = n then some v else alistLookup d n := by
  induction d with
  | nil => by_cases hk : k = n <;> simp [alistSet, alistLookup, hk]
  | cons kv rest ih =>
    obtain ⟨k', v'⟩ := kv
    by_cases hk : k' = k
    · by_cases hn : k = n
      · rw [alistSet, if_pos hk, alistLookup, if_pos hn, if_pos hn]
      · rw [alistSet, if_pos hk, alistLookup, if_neg hn, if_neg hn, alistLookup,
          if_neg (hk ▸ hn)]
    · rw [alistSet, if_neg hk, alistLookup]
      by_cases hn : k' = n
      · rw [if_pos hn, if_neg (fun he => hk (hn ▸ he.symm)), alistLookup, if_pos hn]
      · rw [if_neg hn, ih, alistLookup, if_neg hn]

/-- Unrolling of the three decode rounds against the claim-side description
built from the decode chain. -/
theorem decodeRounds_three_spec (raw : JVal) :
    decodeRounds 3 raw =
      (match firstJsonOf (specDecodes raw) with
       | some v => v
       | none =>
         match (specDecodes raw).getLast? with
         | some d => .str d
         | none => raw) := by
  cases h1 : b64_to_str raw with
  | none => simp [decodeRounds, specDecodes, h1, firstJsonOf]
  | some d1 =>
    cases j1 : json_loads d1 with
    | some v =>
      cases h2 : b64_to_str (.str d1) with
      | none => simp [decodeRounds, specDecodes, h1, h2, j1, firstJsonOf]
      | some d2 =>
        cases h3 : b64_to_str (.str d2) with
        | none => simp [decodeRounds, specDecodes, h1, h2, h3, j1, firstJsonOf]
        | some d3 => simp [decodeRounds, specDecodes, h1, h2, h3, j1, firstJsonOf]
    | none =>
      cases h2 : b64_to_str (.str d1) with
      | none => simp [decodeRounds, specDecodes, h1, h2, j1, firstJsonOf]
      | some d2 =>
        cases j2 : json_loads d2 with
        | some v =>
          cases h3 : b64_to_str (.str d2) with
          | none => simp [decodeRounds, specDecodes, h1, h2, h3, j1, j2, firstJsonOf]
          | some d3 => simp [decodeRounds, specDecodes, h1, h2, h3, j1, j2, firstJsonOf]
        | none =>
          cases h3 : b64_to_str (.str d2) with
          | none => simp [decodeRounds, specDecodes, h1, h2, h3, j1, j2, firstJsonOf]
          | some d3 =>
            cases j3 : json_loads d3 <;>
              simp [decodeRounds, specDecodes, h1, h2, h3, j1, j2, j3, firstJsonOf]

/-- Claim C2: for every record with a data field, _decode_data_field
performs at most three rounds of base64 decoding with a JSON parse attempt
after each; the first successful parse gives the new data value, otherwise
the last successfully decoded string remains, or the original value when
the very first decode fails; a record without a data field is returned
unchanged. -/
theorem C2_decode_data_field_spec (event : List (String × JVal)) :
    _decode_data_field event = decode_data_field_spec event := by
  unfold _decode_data_field decode_data_field_spec
  cases h : alistLookup event "data" with
  | none => rfl
  | some raw =>
    dsimp only
    rw [decodeRounds_three_spec raw]
    cases hf : firstJsonOf (specDecodes raw) with
    | some v => rfl
    | none => cases (specDecodes raw).getLast? <;> rfl

/-- Claim C8: data-field decoding is the identity on records whose data
value is already an object, and hence idempotent on them. -/
theorem C8_decode_idempotent_on_objects (event : List (String × JVal))
    (o : List (String × JVal)) (h : alistLookup event "data" = some (.obj o)) :
    _decode_data_field event = event ∧
      _decode_data_field (_decode_data_field event) = _decode_data_field event := by
  have hid : _decode_data_field event = event := by
    unfold _decode_data_field
    rw [h]
    dsimp only
    have hrounds : decodeRounds 3 (JVal.obj o) = JVal.obj o := rfl
    rw [hrounds, alistSet_lookup_self event "data" (JVal.obj o) h]
  exact ⟨hid, by rw [hid, hid]⟩

/-- Option elimination against Option.getD, used to align the parse
fallback of the two placeholder-replacement formulations. -/
theorem matchGetD (o : Option JVal) (r : String) :
    (match o with | some v => v | none => JVal.str r) = o.getD (JVal.str r) := by
  cases o <;> rfl

/-- Claim C1: a template that after stripping is exactly one placeholder
resolving to an object or array yields that value unserialized (so the
template of a single aws.pipes.event.json placeholder returns the event
itself); any other template is substituted placeholder by placeholder
(dicts, lists and booleans as JSON, other values as str, unknown keys as
the empty string) and, when the stripped template starts with a brace and
the substituted string parses as JSON, the parsed value is returned,
otherwise the string. -/
theorem C1_transformer_result_typing :
    (∀ template repl,
        _replace_placeholders template repl = replace_placeholders_spec template repl) ∧
      ∀ pipe_arn pipe_name source_arn target_arn now_iso event,
        transform "<aws.pipes.event.json>" pipe_arn pipe_name source_arn target_arn
          now_iso event = .obj event := by
  constructor
  · intro template repl
    unfold _replace_placeholders replace_placeholders_spec
    dsimp only
    cases hfm : placeholderFullmatch (pyStrip template) with
    | none =>
      dsimp only
      by_cases hb : (pyStrip template).startsWith (String.mk [lbrace])
      · rw [if_pos hb, if_pos hb, matchGetD]
      · rw [if_neg hb, if_neg hb]
    | some key =>
      dsimp only
      cases hv : replGet repl key with
      | obj fs => rfl
      | arr es => rfl
      | null =>
        dsimp only
        by_cases hb : (pyStrip template).startsWith (String.mk [lbrace])
        · rw [if_pos hb, if_pos hb, matchGetD]
          simp [isStructured]
        · rw [if_neg hb, if_neg hb]
          simp [isStructured]
      | bool b =>
        dsimp only
        by_cases hb : (pyStrip template).startsWith (String.mk [lbrace])
        · rw [if_pos hb, if_pos hb, matchGetD]
          simp [isStructured]
        · rw [if_neg hb, if_neg hb]
          simp [isStructured]
      | int n =>
        dsimp only
        by_cases hb : (pyStrip template).startsWith (String.mk [lbrace])
        · rw [if_pos hb, if_pos hb, matchGetD]
          simp [isStructured]
        · rw [if_neg hb, if_neg hb]
          simp [isStructured]
      | str s =>
        dsimp only
        by_cases hb : (pyStrip template).startsWith (String.mk [lbrace])
        · rw [if_pos hb, if_pos hb, matchGetD]
          simp [isStructured]
        · rw [if_neg hb, if_neg hb]
          simp [isStructured]
  · intro pipe_arn pipe_name source_arn target_arn now_iso event
    rfl

/-- Witness for C8 at a concrete record carrying an already-decoded
object. -/
theorem C8_witness :
    _decode_data_field [("id", JVal.str "1"), ("data", JVal.obj [("k", JVal.int 7)])]
        = [("id", JVal.str "1"), ("data", JVal.obj [("k", JVal.int 7)])] ∧
      _decode_data_field (_decode_data_field
          [("id", JVal.str "1"), ("data", JVal.obj [("k", JVal.int 7)])])
        = _decode_data_field [("id", JVal.str "1"), ("data", JVal.obj [("k", JVal.int 7)])] :=
  C8_decode_idempotent_on_objects _ [("k", JVal.int 7)] rfl

/-- Claim C3: process_events_batch is the try body under a handler that
re-raises CustomerInvocationError unchanged and wraps every other
exception into PipeInternalError carrying the original message; no foreign
exception class ever escapes it. -/
theorem C3_error_classification
    (transformer : Option (List (String × JVal) → Except PyExc JVal))
    (send : List JVal → Except PyExc Unit)
    (input_events : List (List (String × JVal))) :
    (process_events_batch transformer send input_events =
      match pebBody transformer send input_events with
      | .ok u => .ok u
      | .error (.customerInvocationError m) => .error (.customerInvocationError m)
      | .error e => .error (.pipeInternalError (excMessage e))) ∧
      raisesForeign (process_events_batch transformer send input_events) = false := by
  refine ⟨rfl, ?_⟩
  unfold process_events_batch
  cases pebBody transformer send input_events with
  | ok u => rfl
  | error e => cases e <;> rfl

/-- Per-index unfolding of the API-destination send loop against the
expected requests and warnings. -/
theorem apiDestSendGo_spec (respond : Nat → HttpRequest → HttpResponse)
    (method endpoint : String) (i : Nat) (events : List JVal) :
    apiDestSendGo respond method endpoint i events =
      (expected_requests method endpoint events,
       ((expected_requests method endpoint events).enumFrom i).filterMap fun p =>
         let res := respond p.1 p.2
         if 400 ≤ res.status_code then some (res.status_code, strTruncate 500 res.text)
         else none) := by
  induction events generalizing i with
  | nil => rfl
  | cons e rest ih =>
    simp only [apiDestSendGo, expected_requests, List.map_cons, List.enumFrom,
      List.filterMap, ih]
    by_cases hs : 400 ≤ (respond i ⟨method, endpoint, to_json_str e⟩).status_code
    · simp [expected_requests, hs]
    · simp [expected_requests, hs]

/-- Claim C7 (amended): the API-destination target sends exactly one HTTP
request per event, in batch order, with the JSON-serialized event as body;
it never raises, and responses with status at least 400 (authentication
failures included) are only recorded as log warnings. -/
theorem C7_send_loop_amended (respond : Nat → HttpRequest → HttpResponse)
    (method endpoint : String) (events : List JVal) :
    api_destination_send respond method endpoint events =
      .ok (expected_requests method endpoint events,
           expected_warnings respond method endpoint events) := by
  unfold api_destination_send expected_warnings
  rw [apiDestSendGo_spec]
  rfl

/-- Counterexample for C7 as stated: a 401 Unauthorized response — an
authentication failure — does not surface as a CustomerInvocationError;
the send loop returns normally with the failure merely logged. -/
theorem C7_counterexample :
    api_destination_send (fun _ _ => { status_code := 401, text := "Unauthorized" })
        "POST" "https://example.com/hook" [JVal.obj [("k", JVal.int 1)]] =
      .ok ([{ method := "POST", url := "https://example.com/hook",
              body := "\x7b\"k\":1\x7d" }],
           [(401, "Unauthorized")]) := rfl

/-- Setting the freshly appended slot of a list leaves every older index
unchanged. -/
theorem get_append_set {α : Type} (xs : List α) (a d : α) (r : Nat)
    (hr : r < xs.length) : ((xs ++ [a]).set xs.length d).get? r = xs.get? r := by
  induction xs generalizing r with
  | nil => cases hr
  | cons x rest ih =>
    cases r with
    | zero => rfl
    | succ r => exact ih r (Nat.lt_of_succ_lt_succ hr)

/-- A decode step never changes cells that existed before it ran: its only
write goes to the freshly allocated copy. -/
theorem decode_heap_preserves (h : Heap) (r0 r : Nat) (hr : r < h.cells.length) :
    ((decode_data_field_heap h r0).1).read r = h.read r := by
  unfold decode_data_field_heap
  dsimp only
  cases hd : alistLookup (h.read r0) "data" with
  | none => rfl
  | some raw =>
    dsimp only [Heap.alloc, Heap.write, Heap.read]
    rw [get_append_set h.cells _ _ r hr]

/-- A decode step can only grow the heap. -/
theorem decode_heap_length_le (h : Heap) (r0 : Nat) :
    h.cells.length ≤ ((decode_data_field_heap h r0).1).cells.length := by
  unfold decode_data_field_heap
  dsimp only
  cases hd : alistLookup (h.read r0) "data" with
  | none => exact Nat.le_refl _
  | some raw =>
    dsimp only [Heap.alloc, Heap.write]
    rw [List.length_set, List.length_append]
    exact Nat.le_add_right _ _

/-- The batch decode phase preserves every pre-existing cell. -/
theorem decode_batch_preserves (rs : List Nat) :
    ∀ (h : Heap) (r : Nat), r < h.cells.length →
      ((decode_batch_heap h rs).1).read r = h.read r := by
  induction rs with
  | nil => intro h r _; rfl
  | cons r0 rest ih =>
    intro h r hr
    unfold decode_batch_heap
    dsimp only
    rw [ih (decode_data_field_heap h r0).1 r
        (Nat.lt_of_lt_of_le hr (decode_heap_length_le h r0)),
      decode_heap_preserves h r0 r hr]

/-- Claim C9: process_events_batch does not mutate its input events — every
input dict cell holds exactly its old value after the call, because the
decoder writes only to shallow copies and the transformer and targets only
read. -/
theorem C9_no_input_mutation (transformer : Option (List (String × JVal) → JVal))
    (h : Heap) (rs : List Nat) (hwf : ∀ r ∈ rs, r < h.cells.length) :
    ∀ r ∈ rs, ((process_events_batch_heap transformer h rs).1).read r = h.read r := by
  intro r hr
  have hproc : (process_events_batch_heap transformer h rs).1 = (decode_batch_heap h rs).1 := by
    unfold process_events_batch_heap
    cases transformer <;> rfl
  rw [hproc]
  exact decode_batch_preserves rs h r (hwf r hr)

/-- Witness for C9 on a two-event heap: one event with a data field (which
forces the copy-and-write path) and one without. -/
theorem C9_witness :
    ((process_events_batch_heap none
        ⟨[[("data", JVal.obj [("k", JVal.int 1)])], [("x", JVal.int 2)]]⟩ [0, 1]).1).read 0
      = Heap.read ⟨[[("data", JVal.obj [("k", JVal.int 1)])], [("x", JVal.int 2)]]⟩ 0 ∧
    ((process_events_batch_heap none
        ⟨[[("data", JVal.obj [("k", JVal.int 1)])], [("x", JVal.int 2)]]⟩ [0, 1]).1).read 1
      = Heap.read ⟨[[("data", JVal.obj [("k", JVal.int 1)])], [("x", JVal.int 2)]]⟩ 1 :=
  ⟨C9_no_input_mutation none _ [0, 1] (by decide) 0 (by decide),
   C9_no_input_mutation none _ [0, 1] (by decide) 1 (by decide)⟩

/-- Claim C5: a second create_pipe with the name of an existing pipe (a
valid pipe name, as every stored pipe's name is) raises ConflictException
and leaves the provider state — pipes, tag service and workers — exactly
as it was. -/
theorem C5_duplicate_create_conflict
    (now : Nat) (cr sr : Bool) (ps : ProviderState) (account_id region : String)
    (name source target role_arn : String) (description : Option String)
    (desired_state : Option RequestedPipeState)
    (sp en ep tp : Option String) (tags : Option (List (String × String)))
    (lc kk : Option String) (p : PipeEntity)
    (hvalid : _validate_pipe_name_ok name = true)
    (hdup : alistLookup ps.store.pipes name = some p) :
    create_pipe now cr sr ps account_id region name source target role_arn description
        desired_state sp en ep tp tags lc kk
      = (ps, .error (.conflictException s!"Pipe {name} already exists." name "pipe")) := by
  simp [create_pipe, hvalid, hdup]

/-- Witness for C5: re-creating the sample pipe named a conflicts and
leaves the state untouched. -/
theorem C5_witness :
    create_pipe 9 false false sampleState "000000000000" "us-east-1" "a"
        "src" "tgt" "role" none none none none none none none none none
      = (sampleState,
         .error (.conflictException "Pipe a already exists." "a" "pipe")) :=
  C5_duplicate_create_conflict 9 false false sampleState "000000000000" "us-east-1"
    "a" "src" "tgt" "role" none none none none none none none none none
    (samplePipe "a" .RUNNING 0) rfl rfl

/-- Claim C6: for existing pipes, start_pipe raises ConflictException
exactly when the pipe's requested state is already RUNNING and stop_pipe
exactly when it is already STOPPED, and on the conflict branch the whole
provider state (the pipe entity included) is unchanged. -/
theorem C6_start_stop_conflict
    (now : Nat) (cr sr stR : Bool) (ps : ProviderState)
    (nameA nameB : String) (pA pB : PipeEntity)
    (hA : alistLookup ps.store.pipes nameA = some pA)
    (hB : alistLookup ps.store.pipes nameB = some pB) :
    (isConflict (start_pipe now cr sr ps nameA).2 = true
        ↔ pA.desired_state = .RUNNING) ∧
    (pA.desired_state = .RUNNING →
      start_pipe now cr sr ps nameA = (ps, .error (.conflictException
        s!"Pipe {nameA} is already in the desired state RUNNING." nameA "pipe"))) ∧
    (isConflict (stop_pipe now stR ps nameB).2 = true
        ↔ pB.desired_state = .STOPPED) ∧
    (pB.desired_state = .STOPPED →
      stop_pipe now stR ps nameB = (ps, .error (.conflictException
        s!"Pipe {nameB} is already in the desired state STOPPED." nameB "pipe"))) := by
  refine ⟨?_, ?_, ?_, ?_⟩
  · by_cases hd : pA.desired_state = RequestedPipeState.RUNNING
    · simp [start_pipe, hA, hd, isConflict]
    · simp [start_pipe, hA, hd, isConflict]
  · intro hd
    simp [start_pipe, hA, hd]
  · by_cases hd : pB.desired_state = RequestedPipeState.STOPPED
    · simp [stop_pipe, hB, hd, isConflict]
    · simp [stop_pipe, hB, hd, isConflict]
  · intro hd
    simp [stop_pipe, hB, hd]

/-- Witness for C6 on the sample state: starting the pipe already requested
RUNNING conflicts without touching the state, and so does stopping the
pipe already requested STOPPED. -/
theorem C6_witness :
    isConflict (start_pipe 3 false false sampleState "a").2 = true ∧
    start_pipe 3 false false sampleState "a" = (sampleState, .error (.conflictException
      "Pipe a is already in the desired state RUNNING." "a" "pipe")) ∧
    isConflict (stop_pipe 3 false sampleState "b").2 = true ∧
    stop_pipe 3 false sampleState "b" = (sampleState, .error (.conflictException
      "Pipe b is already in the desired state STOPPED." "b" "pipe")) := by
  have t := C6_start_stop_conflict 3 false false false sampleState "a" "b"
    (samplePipe "a" .RUNNING 0) (samplePipe "b" .STOPPED 0) rfl rfl
  exact ⟨t.1.mpr rfl, t.2.1 rfl, t.2.2.1.mpr rfl, t.2.2.2 rfl⟩

/-- Claim C10: a string not matching the pipe-ARN pattern is passed through
by _pipe_name_from_arn unchanged, so the tagging operations look up a pipe
named by the whole string and raise NotFoundException when no such pipe
exists, leaving the state unchanged. -/
theorem C10_malformed_arn (s : String) (ps : ProviderState)
    (tmap : List (String × String)) (tkeys : List String)
    (hnm : arnMatch s = none) (hmiss : alistLookup ps.store.pipes s = none) :
    _pipe_name_from_arn s = s ∧
    tag_resource ps s tmap = (ps, .error (.notFoundException (notFoundMsg s))) ∧
    untag_resource ps s tkeys = (ps, .error (.notFoundException (notFoundMsg s))) ∧
    list_tags_for_resource ps s = (ps, .error (.notFoundException (notFoundMsg s))) := by
  have hname : _pipe_name_from_arn s = s := by
    unfold _pipe_name_from_arn
    rw [hnm]
  refine ⟨hname, ?_, ?_, ?_⟩
  · simp [tag_resource, hname, hmiss]
  · simp [untag_resource, hname, hmiss]
  · simp [list_tags_for_resource, hname, hmiss]

/-- Witness for C10 at a concrete malformed ARN. -/
theorem C10_witness :
    _pipe_name_from_arn "not-an-arn" = "not-an-arn" ∧
    tag_resource sampleState "not-an-arn" [("k", "v")]
      = (sampleState, .error (.notFoundException (notFoundMsg "not-an-arn"))) ∧
    untag_resource sampleState "not-an-arn" ["k"]
      = (sampleState, .error (.notFoundException (notFoundMsg "not-an-arn"))) ∧
    list_tags_for_resource sampleState "not-an-arn"
      = (sampleState, .error (.notFoundException (notFoundMsg "not-an-arn"))) :=
  C10_malformed_arn "not-an-arn" sampleState [("k", "v")] ["k"] rfl rfl

/-- Worker start never touches the entity timestamp. -/
theorem start_worker_lmt (cr sr : Bool) (ws : List String) (p : PipeEntity) :
    ((_start_pipe_worker cr sr ws p).2).last_modified_time = p.last_modified_time := by
  unfold _start_pipe_worker
  dsimp only
  split_ifs <;> rfl

/-- Worker stop never touches the entity timestamp. -/
theorem stop_worker_lmt (stR : Bool) (ws : List String) (p : PipeEntity) :
    ((_stop_pipe_worker stR ws p).2).last_modified_time = p.last_modified_time := by
  unfold _stop_pipe_worker
  split_ifs <;> rfl

/-- Counterexample for C4 as stated: a successful tag_resource call leaves
last_modified_time exactly as it was (the operation never reads the
clock), so not every mutating control-plane operation updates it. -/
theorem C4_counterexample :
    (tag_resource sampleState "arn:aws:pipes:us-east-1:000000000000:pipe/a"
        [("k", "v")]).2 = .ok () ∧
    (alistLookup (tag_resource sampleState "arn:aws:pipes:us-east-1:000000000000:pipe/a"
          [("k", "v")]).1.store.pipes "a").map PipeEntity.last_modified_time
      = (alistLookup sampleState.store.pipes "a").map PipeEntity.last_modified_time :=
  ⟨rfl, rfl⟩

/-- Claim C4 (amended): create, update, delete, start and stop stamp
last_modified_time with the call instant (on the entity where it survives,
and on the returned record), while tag_resource and untag_resource leave
every pipe's last_modified_time unchanged. -/
theorem C4_last_modified_amended
    (now : Nat) (cr sr stR : Bool) (ps : ProviderState)
    (account_id region nameC nameS nameT nameU nameD role src tgt : String)
    (d : Option String) (dst : Option RequestedPipeState)
    (sp en ep tp lc kk : Option String) (tgs : Option (List (String × String)))
    (arn : String) (tmap : List (String × String)) (tkeys : List String)
    (respC respS respT respU respD : PipeLifecycleResponse) :
    ((create_pipe now cr sr ps account_id region nameC src tgt role d dst sp en ep tp
        tgs lc kk).2 = .ok respC → respC.LastModifiedTime = now) ∧
    ((start_pipe now cr sr ps nameS).2 = .ok respS →
      respS.LastModifiedTime = now ∧
      (alistLookup (start_pipe now cr sr ps nameS).1.store.pipes nameS).map
          PipeEntity.last_modified_time = some now) ∧
    ((stop_pipe now stR ps nameT).2 = .ok respT →
      respT.LastModifiedTime = now ∧
      (alistLookup (stop_pipe now stR ps nameT).1.store.pipes nameT).map
          PipeEntity.last_modified_time = some now) ∧
    ((update_pipe now cr sr stR ps nameU role d dst sp en ep (some tgt) tp lc kk).2
        = .ok respU →
      respU.LastModifiedTime = now ∧
      (alistLookup (update_pipe now cr sr stR ps nameU role d dst sp en ep (some tgt)
            tp lc kk).1.store.pipes nameU).map
          PipeEntity.last_modified_time = some now) ∧
    ((delete_pipe now stR ps nameD).2 = .ok respD → respD.LastModifiedTime = now) ∧
    (∀ n, (alistLookup (tag_resource ps arn tmap).1.store.pipes n).map
        PipeEntity.last_modified_time
      = (alistLookup ps.store.pipes n).map PipeEntity.last_modified_time) ∧
    (∀ n, (alistLookup (untag_resource ps arn tkeys).1.store.pipes n).map
        PipeEntity.last_modified_time
      = (alistLookup ps.store.pipes n).map PipeEntity.last_modified_time) := by
  refine ⟨?_, ?_, ?_, ?_, ?_, ?_, ?_⟩
  · intro h
    by_cases hv : _validate_pipe_name_ok nameC
    · by_cases hdup : (alistLookup ps.store.pipes nameC).isSome
      · simp [create_pipe, hv, hdup] at h
      · by_cases hds : dst.getD RequestedPipeState.RUNNING = RequestedPipeState.RUNNING
        · simp [create_pipe, hv, hdup, hds] at h
          rw [← h]
          simp [mkResp, start_worker_lmt]
        · simp [create_pipe, hv, hdup, hds] at h
          rw [← h]
          simp [mkResp]
    · simp [create_pipe, hv] at h
  · intro h
    cases hl : alistLookup ps.store.pipes nameS with
    | none => simp [start_pipe, hl] at h
    | some pipe =>
      by_cases hd : pipe.desired_state = RequestedPipeState.RUNNING
      · simp [start_pipe, hl, hd] at h
      · constructor
        · simp [start_pipe, hl, hd] at h
          rw [← h]
          simp [mkResp, start_worker_lmt]
        · simp [start_pipe, hl, hd, alistLookup_alistSet, start_worker_lmt]
  · intro h
    cases hl : alistLookup ps.store.pipes nameT with
    | none => simp [stop_pipe, hl] at h
    | some pipe =>
      by_cases hd : pipe.desired_state = RequestedPipeState.STOPPED
      · simp [stop_pipe, hl, hd] at h
      · constructor
        · simp [stop_pipe, hl, hd] at h
          rw [← h]
          simp [mkResp, stop_worker_lmt]
        · simp [stop_pipe, hl, hd, alistLookup_alistSet, stop_worker_lmt]
  · intro h
    cases hl : alistLookup ps.store.pipes nameU with
    | none => simp [update_pipe, hl] at h
    | some pipe =>
      constructor
      · simp [update_pipe, hl] at h
        rw [← h]
        split <;> simp [mkResp, start_worker_lmt]
      · simp [update_pipe, hl, alistLookup_alistSet]
        split <;> simp [start_worker_lmt]
  · intro h
    cases hl : alistLookup ps.store.pipes nameD with
    | none => simp [delete_pipe, hl] at h
    | some pipe =>
      simp [delete_pipe, hl] at h
      rw [← h]
      simp [mkResp]
  · intro n
    cases hl : alistLookup ps.store.pipes (_pipe_name_from_arn arn) with
    | none => simp [tag_resource, hl]
    | some pipe =>
      simp only [tag_resource, hl]
      rw [alistLookup_alistSet]
      by_cases hn : _pipe_name_from_arn arn = n
      · rw [if_pos hn, ← hn, hl]
        rfl
      · rw [if_neg hn]
  · intro n
    cases hl : alistLookup ps.store.pipes (_pipe_name_from_arn arn) with
    | none => simp [untag_resource, hl]
    | some pipe =>
      simp only [untag_resource, hl]
      rw [alistLookup_alistSet]
      by_cases hn : _pipe_name_from_arn arn = n
      · rw [if_pos hn, ← hn, hl]
        dsimp only [Option.map]
        split
        · split <;> rfl
        · rfl
      · rw [if_neg hn]

/-- Witness for the amended C4 on the sample state: every lifecycle
operation stamps the call instant 7 while tagging and untagging leave the
timestamps alone. -/
theorem C4_amended_witness :
    (create_pipe 7 false false sampleState "000000000000" "us-east-1" "c" "src" "tgt"
        "role" none none none none none none none none none).2.map
        PipeLifecycleResponse.LastModifiedTime = .ok 7 ∧
    (start_pipe 7 false false sampleState "b").2.map
        PipeLifecycleResponse.LastModifiedTime = .ok 7 ∧
    (alistLookup (start_pipe 7 false false sampleState "b").1.store.pipes "b").map
        PipeEntity.last_modified_time = some 7 ∧
    (stop_pipe 7 false sampleState "a").2.map
        PipeLifecycleResponse.LastModifiedTime = .ok 7 ∧
    (update_pipe 7 false false false sampleState "a" "role" none none none none none
        (some "tgt") none none none).2.map
        PipeLifecycleResponse.LastModifiedTime = .ok 7 ∧
    (delete_pipe 7 false sampleState "b").2.map
        PipeLifecycleResponse.LastModifiedTime = .ok 7 ∧
    (alistLookup (tag_resource sampleState "arn:aws:pipes:us-east-1:000000000000:pipe/a"
          [("k", "v")]).1.store.pipes "a").map PipeEntity.last_modified_time
      = (alistLookup sampleState.store.pipes "a").map PipeEntity.last_modified_time ∧
    (alistLookup (untag_resource sampleState "arn:aws:pipes:us-east-1:000000000000:pipe/a"
          ["k"]).1.store.pipes "a").map PipeEntity.last_modified_time
      = (alistLookup sampleState.store.pipes "a").map PipeEntity.last_modified_time := by
  refine ⟨?_, ?_, ?_, ?_, ?_, ?_, ?_, ?_⟩
  · exact congrArg Except.ok ((C4_last_modified_amended 7 false false false sampleState
      "000000000000" "us-east-1" "c" "b" "a" "a" "b" "role" "src" "tgt" none none none
      none none none none none none "arn:aws:pipes:us-east-1:000000000000:pipe/a"
      [("k", "v")] ["k"] _ sampleResp sampleResp sampleResp sampleResp).1 rfl)
  · exact congrArg Except.ok (((C4_last_modified_amended 7 false false false sampleState
      "000000000000" "us-east-1" "c" "b" "a" "a" "b" "role" "src" "tgt" none none none
      none none none none none none "arn:aws:pipes:us-east-1:000000000000:pipe/a"
      [("k", "v")] ["k"] sampleResp _ sampleResp sampleResp sampleResp).2.1 rfl).1)
  · exact ((C4_last_modified_amended 7 false false false sampleState
      "000000000000" "us-east-1" "c" "b" "a" "a" "b" "role" "src" "tgt" none none none
      none none none none none none "arn:aws:pipes:us-east-1:000000000000:pipe/a"
      [("k", "v")] ["k"] sampleResp _ sampleResp sampleResp sampleResp).2.1 rfl).2
  · exact congrArg Except.ok (((C4_last_modified_amended 7 false false false sampleState
      "000000000000" "us-east-1" "c" "b" "a" "a" "b" "role" "src" "tgt" none none none
      none none none none none none "arn:aws:pipes:us-east-1:000000000000:pipe/a"
      [("k", "v")] ["k"] sampleResp sampleResp _ sampleResp sampleResp).2.2.1 rfl).1)
  · exact congrArg Except.ok (((C4_last_modified_amended 7 false false false sampleState
      "000000000000" "us-east-1" "c" "b" "a" "a" "b" "role" "src" "tgt" none none none
      none none none none none none "arn:aws:pipes:us-east-1:000000000000:pipe/a"
      [("k", "v")] ["k"] sampleResp sampleResp sampleResp _ sampleResp).2.2.2.1 rfl).1)
  · exact congrArg Except.ok ((C4_last_modified_amended 7 false false false sampleState
      "000000000000" "us-east-1" "c" "b" "a" "a" "b" "role" "src" "tgt" none none none
      none none none none none none "arn:aws:pipes:us-east-1:000000000000:pipe/a"
      [("k", "v")] ["k"] sampleResp sampleResp sampleResp sampleResp _).2.2.2.2.1 rfl)
  · exact (C4_last_modified_amended 7 false false false sampleState
      "000000000000" "us-east-1" "c" "b" "a" "a" "b" "role" "src" "tgt" none none none
      none none none none none none "arn:aws:pipes:us-east-1:000000000000:pipe/a"
      [("k", "v")] ["k"] sampleResp sampleResp sampleResp sampleResp
      sampleResp).2.2.2.2.2.1 "a"
  · exact (C4_last_modified_amended 7 false false false sampleState
      "000000000000" "us-east-1" "c" "b" "a" "a" "b" "role" "src" "tgt" none none none
      none none none none none none "arn:aws:pipes:us-east-1:000000000000:pipe/a"
      [("k", "v")] ["k"] sampleResp sampleResp sampleResp sampleResp
      sampleResp).2.2.2.2.2.2 "a"
